import Mathlib

/-!
Verification development for the multi-account email search/classification
core (account registry, search orchestrator, classification engine).

The TypeScript sources are embedded shallowly:
* JS numbers used for scores are modelled as `ℚ` (the source constants
  0.15, 0.5, 0.2, 0.1, 0.25, 0.3, 1.0 are exact decimal fractions);
* `Date` values are modelled as epoch milliseconds (`Int`);
* thrown exceptions are modelled with `Except String`;
* the SQLite `email_accounts` table is modelled as a `List EmailAccount`
  (with the `UNIQUE(account_name)` constraint checked explicitly and
  AUTOINCREMENT ids modelled as a fresh id);
* `Array.prototype.sort` (stable, comparator-consistent) is modelled by
  `List.mergeSort`, which is stable;
* `JSON`-level optional/falsy request fields are modelled with `Option`
  plus explicit JS truthiness tests.
-/

/-- Email message as produced by a provider client
(interface `EmailMessage` in the IMAP/Gmail client module).
`receivedAtMs` models the JS `Date receivedAt` as epoch milliseconds;
`fromAddr`/`toAddrs` stand for the JS `from`/`to` fields (Lean keywords);
the optional `cc`/`bcc` fields are omitted (unused by the embedded code). -/
structure EmailMessage where
  id : String
  subject : String
  fromAddr : String
  toAddrs : List String
  body : String
  snippet : String
  receivedAtMs : Int
  isRead : Bool
  hasAttachments : Bool
  labels : List String
deriving DecidableEq

/-- Email account record (interface `EmailAccount` in
`email-account-service.ts`).  The opaque provider credential blob and the
created/updated timestamps are carried as plain strings / omitted, since no
embedded operation inspects them beyond storage. -/
structure EmailAccount where
  id : Nat
  accountName : String
  email : String
  provider : String
  isActive : Bool
  defaultMailbox : String
  customUrgentKeywords : List String
  customImportantKeywords : List String
deriving DecidableEq

/-- Source constant `DEFAULT_URGENT_KEYWORDS`. -/
def DEFAULT_URGENT_KEYWORDS : List String :=
  ["urgent", "asap", "critical", "emergency", "immediately", "rush",
   "time-sensitive", "deadline", "important", "high priority",
   "action required", "attention needed"]

/-- Source constant `DEFAULT_IMPORTANT_KEYWORDS`. -/
def DEFAULT_IMPORTANT_KEYWORDS : List String :=
  ["meeting", "conference", "presentation", "proposal", "deal",
   "contract", "agreement", "approval", "review", "approval needed",
   "signature", "confirmation", "important"]

/-- JS `String.prototype.toLowerCase` restricted to the ASCII range
(`Char.toLower` lowers exactly the chars A-Z), applied characterwise. -/
def lowerString (s : String) : String :=
  ⟨s.data.map Char.toLower⟩

/-- JS regex word character class `\w`, i.e. `[A-Za-z0-9_]`. -/
def isWordChar (c : Char) : Bool :=
  ('a' ≤ c && c ≤ 'z') || ('A' ≤ c && c ≤ 'Z') || ('0' ≤ c && c ≤ '9') || c = '_'

/-- Wordness of the character of `t` at index `i` (out of range counts as
a non-word position, as at the ends of a JS string). -/
def wordAt (t : List Char) (i : Nat) : Bool :=
  match t.get? i with
  | some c => isWordChar c
  | none => false

/-- JS regex `\b` assertion at position `i` of `t`: the wordness of the
character before position `i` differs from the wordness of the character
at position `i`. -/
def boundaryAt (t : List Char) (i : Nat) : Bool :=
  (match i with
   | 0 => false
   | j + 1 => wordAt t j) != wordAt t i

/-- Case-insensitive character-by-character match of `k` inside `t`
starting at index `i` (models the regex `i` flag via `Char.toLower`). -/
def charsMatchAt (t k : List Char) (i : Nat) : Bool :=
  match k with
  | [] => true
  | c :: k' =>
    match t.get? i with
    | some d => (d.toLower = c.toLower) && charsMatchAt t k' (i + 1)
    | none => false

/-- Match of the regex `\b k \b` (with the `i` flag) at position `i` of `t`,
for a keyword `k` free of regex metacharacters: word boundary before,
the keyword's characters, word boundary after. -/
def matchAt (t k : List Char) (i : Nat) : Bool :=
  boundaryAt t i && boundaryAt t (i + k.length) && charsMatchAt t k i

/-- Fuel-driven scan implementing the JS global-regex match loop
(`text.match(new RegExp(..., 'gi'))`): leftmost match at index ≥ `i`,
then resume past the match (advancing by one position on an empty match,
as `AdvanceStringIndex` does). -/
def countMatchesFrom (t k : List Char) : Nat → Nat → Nat
  | 0, _ => 0
  | fuel + 1, i =>
    if i ≤ t.length then
      if matchAt t k i then 1 + countMatchesFrom t k fuel (i + max k.length 1)
      else countMatchesFrom t k fuel (i + 1)
    else 0

/-- Number of matches of `\b k \b` (flags `gi`) in `t`, i.e.
`(text.match(regex) || []).length` in the source. -/
def countMatches (t k : List Char) : Nat :=
  countMatchesFrom t k (t.length + 1) 0

/-- Reason string pushed for a matching keyword, e.g.
`Contains urgent keyword: "asap"`. -/
def keywordReason (kind : String) (kw : String) : String :=
  "Contains " ++ kind ++ " keyword: \"" ++ kw ++ "\""

/-- One iteration of a keyword loop of `classifyEmail`: when the keyword
has at least one whole-word match in `text`, add
`min(matches.length * 0.15, 0.5)` to the running score and push one
reason onto the running reason list. -/
def scanStep (text : String) (kind : String) (acc : ℚ × List String)
    (kw : String) : ℚ × List String :=
  let n := countMatches text.data kw.data
  if 0 < n then
    (acc.1 + min ((n : ℚ) * 0.15) 0.5, acc.2 ++ [keywordReason kind kw])
  else acc

/-- One keyword-scanning loop of `classifyEmail`: keywords are visited in
list order and the score/reason pair is threaded through the loop. -/
def scanKeywords (text : String) (kws : List String) (kind : String) :
    ℚ × List String :=
  kws.foldl (scanStep text kind) (0, [])

/-- Result record of `classifyEmail`. -/
structure Classification where
  isUrgent : Bool
  isImportant : Bool
  urgencyScore : ℚ
  importanceScore : ℚ
  reasons : List String
deriving DecidableEq

/-- Lower-cased concatenation of subject and snippet, the text scanned for
keywords (`const text = `...`.toLowerCase()` in `classifyEmail`). -/
def classifyText (message : EmailMessage) : String :=
  lowerString (message.subject ++ " " ++ message.snippet)

/-- Effective urgent keyword list: the account's custom list when
non-empty, else the built-in default list. -/
def effectiveUrgentKeywords (account : EmailAccount) : List String :=
  if 0 < account.customUrgentKeywords.length then account.customUrgentKeywords
  else DEFAULT_URGENT_KEYWORDS

/-- Effective important keyword list: the account's custom list when
non-empty, else the built-in default list. -/
def effectiveImportantKeywords (account : EmailAccount) : List String :=
  if 0 < account.customImportantKeywords.length then account.customImportantKeywords
  else DEFAULT_IMPORTANT_KEYWORDS

/-- The Gmail-specific label test of `classifyEmail`:
`account.provider === 'gmail' && message.labels` contains IMPORTANT or
STARRED (the `labels` array of the message model is always present, and a
JS array is truthy). -/
def gmailLabelHit (message : EmailMessage) (account : EmailAccount) : Bool :=
  account.provider = "gmail" &&
    (message.labels.contains "IMPORTANT" || message.labels.contains "STARRED")

/-- The recency test of `classifyEmail`:
`(Date.now() - receivedAt.getTime()) / (1000*60*60*24) < 1`. -/
def isRecent (message : EmailMessage) (nowMs : Int) : Bool :=
  decide ((((nowMs - message.receivedAtMs : Int) : ℚ) / 86400000) < 1)

/-- The method `classifyEmail` of `EmailSearchService`, with the implicit
clock read (`Date.now()`) made an explicit argument `nowMs`.  The mutable
`urgencyScore` / `importanceScore` / `reasons` locals are threaded through
the source's statement sequence: urgent-keyword loop, important-keyword
loop, unread bonus, attachment bonus, Gmail label bonus (with its own cap
at 1.0), recency bonus; the final scores are clamped to at most 1.0 while
the flags compare the unclamped totals with 0.3. -/
def classifyEmail (message : EmailMessage) (account : EmailAccount)
    (nowMs : Int) : Classification :=
  let text := classifyText message
  let scanU := scanKeywords text (effectiveUrgentKeywords account) "urgent"
  let scanI := scanKeywords text (effectiveImportantKeywords account) "important"
  let u0 : ℚ := scanU.1
  let i0 : ℚ := scanI.1
  let rs0 : List String := scanU.2 ++ scanI.2
  -- if (!message.isRead) { urgencyScore += 0.2; importanceScore += 0.1; ... }
  let u1 : ℚ := if !message.isRead then u0 + 0.2 else u0
  let i1 : ℚ := if !message.isRead then i0 + 0.1 else i0
  let rs1 := if !message.isRead then rs0 ++ ["Email is unread"] else rs0
  -- if (message.hasAttachments) { importanceScore += 0.25; ... }
  let i2 : ℚ := if message.hasAttachments then i1 + 0.25 else i1
  let rs2 := if message.hasAttachments then rs1 ++ ["Email has attachments"] else rs1
  -- Gmail-specific IMPORTANT/STARRED label bonus, capped at 1.0 per score
  let u3 : ℚ := if gmailLabelHit message account then min (u1 + 0.3) 1 else u1
  let i3 : ℚ := if gmailLabelHit message account then min (i2 + 0.3) 1 else i2
  let rs3 := if gmailLabelHit message account then rs2 ++ ["Marked as important/starred in Gmail"] else rs2
  -- daysSinceReceived = (Date.now() - receivedAt.getTime()) / (1000*60*60*24)
  let u4 : ℚ := if isRecent message nowMs then u3 + 0.15 else u3
  let rs4 := if isRecent message nowMs then rs3 ++ ["Received within last 24 hours"] else rs3
  { isUrgent := decide ((0.3 : ℚ) ≤ u4)
    isImportant := decide ((0.3 : ℚ) ≤ i3)
    urgencyScore := min u4 1
    importanceScore := min i3 1
    reasons := rs4 }

/-- The unclamped urgency total of `classifyEmail` (the value of the
mutable `urgencyScore` local after the recency step, before the final
clamp). -/
def urgencyRaw (message : EmailMessage) (account : EmailAccount) (nowMs : Int) : ℚ :=
  let u0 := (scanKeywords (classifyText message) (effectiveUrgentKeywords account) "urgent").1
  let u1 := if !message.isRead then u0 + 0.2 else u0
  let u3 := if gmailLabelHit message account then min (u1 + 0.3) 1 else u1
  if isRecent message nowMs then u3 + 0.15 else u3

/-- The unclamped importance total of `classifyEmail` (the value of the
mutable `importanceScore` local after the Gmail-label step, before the
final clamp). -/
def importanceRaw (message : EmailMessage) (account : EmailAccount) (_nowMs : Int) : ℚ :=
  let i0 := (scanKeywords (classifyText message) (effectiveImportantKeywords account) "important").1
  let i1 := if !message.isRead then i0 + 0.1 else i0
  let i2 := if message.hasAttachments then i1 + 0.25 else i1
  if gmailLabelHit message account then min (i2 + 0.3) 1 else i2

/-- The reason list accumulated by `classifyEmail`, step by step in
source order. -/
def classifyReasons (message : EmailMessage) (account : EmailAccount) (nowMs : Int) :
    List String :=
  let rs0 := (scanKeywords (classifyText message) (effectiveUrgentKeywords account) "urgent").2
    ++ (scanKeywords (classifyText message) (effectiveImportantKeywords account) "important").2
  let rs1 := if !message.isRead then rs0 ++ ["Email is unread"] else rs0
  let rs2 := if message.hasAttachments then rs1 ++ ["Email has attachments"] else rs1
  let rs3 := if gmailLabelHit message account then rs2 ++ ["Marked as important/starred in Gmail"] else rs2
  if isRecent message nowMs then rs3 ++ ["Received within last 24 hours"] else rs3

/-- Classified search result (interface `ClassifiedEmail` in the search
service). -/
structure ClassifiedEmail where
  id : String
  accountId : Nat
  accountName : String
  subject : String
  fromAddr : String
  recipients : List String
  snippet : String
  receivedAtMs : Int
  isRead : Bool
  hasAttachments : Bool
  isUrgent : Bool
  isImportant : Bool
  urgencyScore : ℚ
  importanceScore : ℚ
  importanceReason : List String
deriving DecidableEq

/-- The record pushed onto `allResults` for a freshly classified message. -/
def toClassified (account : EmailAccount) (msg : EmailMessage)
    (c : Classification) : ClassifiedEmail :=
  { id := msg.id
    accountId := account.id
    accountName := account.accountName
    subject := msg.subject
    fromAddr := msg.fromAddr
    recipients := msg.toAddrs
    snippet := msg.snippet
    receivedAtMs := msg.receivedAtMs
    isRead := msg.isRead
    hasAttachments := msg.hasAttachments
    isUrgent := c.isUrgent
    isImportant := c.isImportant
    urgencyScore := c.urgencyScore
    importanceScore := c.importanceScore
    importanceReason := c.reasons }

/-- Composite deduplication key, the template string
`$\x7baccount.id\x7d:$\x7bmsg.id\x7d` of the source. -/
def mkKey (accountId : Nat) (msgId : String) : String :=
  toString accountId ++ ":" ++ msgId

/-- The key of an already-classified result (determined by its
`accountId` and provider-native `id` fields). -/
def keyOf (r : ClassifiedEmail) : String :=
  mkKey r.accountId r.id

/-- Mutable state of the fan-out loop in `searchEmails`: the accumulated
result array, the `seen` key set (modelled as the list of inserted keys)
and the log of cache upserts issued via `cacheSearchResult`. -/
structure SearchState where
  results : List ClassifiedEmail
  seen : List String
  cacheWrites : List (Nat × String)
deriving DecidableEq

/-- Body of the inner `for (const msg of messages)` loop of
`searchEmails`: skip already-seen composite keys, otherwise classify,
cache and append. -/
def processMessage (nowMs : Int) (account : EmailAccount)
    (st : SearchState) (msg : EmailMessage) : SearchState :=
  let key := mkKey account.id msg.id
  if st.seen.contains key then st
  else
    let c := classifyEmail msg account nowMs
    { results := st.results ++ [toClassified account msg c]
      seen := st.seen ++ [key]
      cacheWrites := st.cacheWrites ++ [(account.id, msg.id)] }

/-- Body of the outer `for (const account of accountsToSearch)` loop of
`searchEmails`: one provider `search` call per account; a thrown provider
error (`Except.error`) is logged and skipped, leaving the state untouched. -/
def processAccount (fetch : EmailAccount → String → Nat → Except String (List EmailMessage))
    (query : String) (maxResults : Nat) (nowMs : Int)
    (st : SearchState) (account : EmailAccount) : SearchState :=
  match fetch account query (maxResults * 2) with
  | .ok msgs => msgs.foldl (processMessage nowMs account) st
  | .error _ => st

/-- The whole fan-out phase of `searchEmails` over the resolved accounts. -/
def collectResults (fetch : EmailAccount → String → Nat → Except String (List EmailMessage))
    (query : String) (maxResults : Nat) (nowMs : Int)
    (accounts : List EmailAccount) : SearchState :=
  accounts.foldl (processAccount fetch query maxResults nowMs) ⟨[], [], []⟩

/-- Ranking score used by the final sort of `searchEmails`. -/
def rankScore (e : ClassifiedEmail) : ℚ :=
  e.urgencyScore * 2 + e.importanceScore

/-- The final `allResults.sort((a, b) => bScore - aScore)` of
`searchEmails`: a stable sort placing higher `rankScore` first. -/
def rankResults (l : List ClassifiedEmail) : List ClassifiedEmail :=
  l.mergeSort (fun a b => decide (rankScore b ≤ rankScore a))

/-- The registry lookup `getAccountById` (SQL `WHERE id = ?`); the id
column is the primary key, modelled by `find?` on the account list. -/
def getAccountById (db : List EmailAccount) (i : Nat) : Option EmailAccount :=
  db.find? (fun a => a.id = i)

/-- The registry query `listActiveAccounts` (SQL `WHERE is_active = 1
ORDER BY created_at DESC`); the model keeps `db` already in descending
creation order, so this is a plain filter. -/
def listActiveAccounts (db : List EmailAccount) : List EmailAccount :=
  db.filter (fun a => a.isActive)

/-- Account resolution at the top of `searchEmails`: an explicit id list
is mapped through `getAccountById` and filtered for resolution failures
(JS `.filter(Boolean)`), otherwise all active accounts are used. -/
def resolveAccounts (db : List EmailAccount) (requested : Option (List Nat)) :
    List EmailAccount :=
  match requested with
  | some ids => ids.filterMap (getAccountById db)
  | none => listActiveAccounts db

/-- The method `searchEmails` of `EmailSearchService`: resolve accounts,
throw when none resolve, fan out (skipping failing accounts), sort by
`urgencyScore * 2 + importanceScore` descending, truncate to
`maxResults`. -/
def searchEmailsSvc (db : List EmailAccount)
    (fetch : EmailAccount → String → Nat → Except String (List EmailMessage))
    (query : String) (requested : Option (List Nat)) (maxResults : Nat)
    (nowMs : Int) : Except String (List ClassifiedEmail) :=
  let accountsToSearch := resolveAccounts db requested
  if accountsToSearch.length = 0 then
    .error "No email accounts available for search"
  else
    .ok ((rankResults (collectResults fetch query maxResults nowMs accountsToSearch).results).take maxResults)

/-- Mutable state of the fan-out loop in `getUrgentAndImportantEmails`:
the two buckets plus the `seen` key set. -/
structure UrgentState where
  urgent : List ClassifiedEmail
  important : List ClassifiedEmail
  seen : List String
deriving DecidableEq

/-- Body of the inner message loop of `getUrgentAndImportantEmails`:
dedup by composite key, classify, then bucket by the two flags. -/
def processUrgentMessage (nowMs : Int) (account : EmailAccount)
    (st : UrgentState) (msg : EmailMessage) : UrgentState :=
  let key := mkKey account.id msg.id
  if st.seen.contains key then st
  else
    let c := classifyEmail msg account nowMs
    let classified := toClassified account msg c
    { urgent := if c.isUrgent then st.urgent ++ [classified] else st.urgent
      important := if c.isImportant then st.important ++ [classified] else st.important
      seen := st.seen ++ [key] }

/-- Body of the outer account loop of `getUrgentAndImportantEmails`; a
thrown `getUrgentEmails` provider call is logged and skipped. -/
def processUrgentAccount (fetchUrgent : EmailAccount → Nat → Except String (List EmailMessage))
    (maxResults : Nat) (nowMs : Int)
    (st : UrgentState) (account : EmailAccount) : UrgentState :=
  match fetchUrgent account (maxResults * 2) with
  | .ok msgs => msgs.foldl (processUrgentMessage nowMs account) st
  | .error _ => st

/-- The method `getUrgentAndImportantEmails` of `EmailSearchService`:
fan out over all active accounts, bucket, sort each bucket by its own
score descending, truncate each to `maxResults`. -/
def getUrgentSvc (db : List EmailAccount)
    (fetchUrgent : EmailAccount → Nat → Except String (List EmailMessage))
    (maxResults : Nat) (nowMs : Int) :
    Except String (List ClassifiedEmail × List ClassifiedEmail) :=
  let accounts := listActiveAccounts db
  if accounts.length = 0 then
    .error "No email accounts configured"
  else
    let st := accounts.foldl (processUrgentAccount fetchUrgent maxResults nowMs) ⟨[], [], []⟩
    .ok ((st.urgent.mergeSort (fun a b => decide (b.urgencyScore ≤ a.urgencyScore))).take maxResults,
         (st.important.mergeSort (fun a b => decide (b.importanceScore ≤ a.importanceScore))).take maxResults)

/-- JS truthiness of an optional string request field (`undefined` and the
empty string are falsy). -/
def truthyStr : Option String → Bool
  | none => false
  | some s => s ≠ ""

/-- JS truthiness of an optional numeric request field (`undefined` and
`0` are falsy). -/
def truthyNat : Option Nat → Bool
  | none => false
  | some n => n ≠ 0

/-- JS truthiness of an optional score floor (`undefined` and `0` are
falsy), used by the `minUrgencyScore`/`minImportanceScore` post-filter. -/
def truthyRat : Option ℚ → Bool
  | none => false
  | some q => q ≠ 0

/-- Configuration accepted by `EmailAccountService.addAccount`
(interface `EmailAccountConfig`), after the handler has built the
provider config; only the fields the embedded operations read are kept. -/
structure EmailAccountConfig where
  accountName : String
  email : String
  provider : String
  defaultMailbox : Option String
  customUrgentKeywords : List String
  customImportantKeywords : List String

/-- Fresh AUTOINCREMENT row id for an insert into `email_accounts`. -/
def nextAccountId (db : List EmailAccount) : Nat :=
  (db.map (fun a => a.id)).foldl max 0 + 1

/-- The service method `addAccount`: the SQL insert hits the
`UNIQUE(account_name)` constraint when the friendly name exists (surfaced
as the `already exists` error); otherwise the row is inserted with
`default_mailbox` falling back to INBOX and the newly assigned id is read
back.  Returns the stored account and the updated table. -/
def addAccountSvc (db : List EmailAccount) (config : EmailAccountConfig) :
    Except String (EmailAccount × List EmailAccount) :=
  if db.any (fun a => a.accountName = config.accountName) then
    .error ("Account name \"" ++ config.accountName ++ "\" already exists")
  else
    let account : EmailAccount :=
      { id := nextAccountId db
        accountName := config.accountName
        email := config.email
        provider := config.provider
        isActive := true
        defaultMailbox := config.defaultMailbox.getD "INBOX"
        customUrgentKeywords := config.customUrgentKeywords
        customImportantKeywords := config.customImportantKeywords }
    .ok (account, db ++ [account])

/-- Request parameters of the `addEmailAccount` tool handler; absent JSON
fields are `none`. -/
structure AddAccountParams where
  accountName : Option String
  email : Option String
  provider : Option String
  refreshToken : Option String
  host : Option String
  port : Option Nat
  username : Option String
  password : Option String
  defaultMailbox : Option String
  customUrgentKeywords : Option (List String)
  customImportantKeywords : Option (List String)

/-- The `addEmailAccount` handler: required-field validation, provider
field validation (Gmail needs a refresh token, IMAP needs host, port,
username and password), then the service insert; on success it reports
the new account id. -/
def addEmailAccountHandler (db : List EmailAccount) (params : AddAccountParams) :
    Except String (Nat × List EmailAccount) :=
  if !truthyStr params.accountName || !truthyStr params.email
      || !truthyStr params.provider then
    .error "Missing required fields: accountName, email, provider"
  else if params.provider = some "gmail" && !truthyStr params.refreshToken then
    .error "Gmail provider requires refreshToken"
  else if params.provider = some "imap"
      && (!truthyStr params.host || !truthyNat params.port
          || !truthyStr params.username || !truthyStr params.password) then
    .error "IMAP provider requires host, port, username, password"
  else
    match addAccountSvc db
      { accountName := params.accountName.getD ""
        email := params.email.getD ""
        provider := params.provider.getD ""
        defaultMailbox := params.defaultMailbox
        customUrgentKeywords := params.customUrgentKeywords.getD []
        customImportantKeywords := params.customImportantKeywords.getD [] } with
    | .ok (account, db') => .ok (account.id, db')
    | .error e => .error e

/-- Request parameters of the `searchEmails` tool handler. -/
structure SearchParams where
  query : Option String
  accounts : Option (List Nat)
  maxResults : Option Nat
  minUrgencyScore : Option ℚ
  minImportanceScore : Option ℚ

/-- The score post-filter of the `searchEmails` handler: a truthy floor
drops results strictly below it. -/
def scoreFloorKeep (params : SearchParams) (e : ClassifiedEmail) : Bool :=
  !(truthyRat params.minUrgencyScore
      && decide (e.urgencyScore < params.minUrgencyScore.getD 0))
  && !(truthyRat params.minImportanceScore
      && decide (e.importanceScore < params.minImportanceScore.getD 0))

/-- The `searchEmails` tool handler: `query` is required, `maxResults`
(default 50) is capped at 500 before the search service runs, and the
two score floors are applied as a post-filter.  The response-shaping map
(two-decimal score formatting) is omitted; the handler result is the
filtered classified list. -/
def searchEmailsHandler (db : List EmailAccount)
    (fetch : EmailAccount → String → Nat → Except String (List EmailMessage))
    (nowMs : Int) (params : SearchParams) : Except String (List ClassifiedEmail) :=
  let maxResults := params.maxResults.getD 50
  if !truthyStr params.query then
    .error "Missing required field: query"
  else if 500 < maxResults then
    .error "maxResults cannot exceed 500"
  else
    match searchEmailsSvc db fetch (params.query.getD "") params.accounts maxResults nowMs with
    | .ok results => .ok (results.filter (scoreFloorKeep params))
    | .error e => .error e

/-- Request parameters of the `getUrgentEmails` tool handler. -/
structure UrgentParams where
  maxResults : Option Nat
  accounts : Option (List Nat)
  onlyUnread : Bool

/-- The `getUrgentEmails` tool handler: `maxResults` (default 20) is
capped at 500, then `getUrgentAndImportantEmails` runs (note the handler
passes only `maxResults` to the service) and `onlyUnread` filters both
buckets. -/
def getUrgentEmailsHandler (db : List EmailAccount)
    (fetchUrgent : EmailAccount → Nat → Except String (List EmailMessage))
    (nowMs : Int) (params : UrgentParams) :
    Except String (List ClassifiedEmail × List ClassifiedEmail) :=
  let maxResults := params.maxResults.getD 20
  if 500 < maxResults then
    .error "maxResults cannot exceed 500"
  else
    match getUrgentSvc db fetchUrgent maxResults nowMs with
    | .ok (urgent, important) =>
      .ok (if params.onlyUnread then urgent.filter (fun e => !e.isRead) else urgent,
           if params.onlyUnread then important.filter (fun e => !e.isRead) else important)
    | .error e => .error e

/-- Per-keyword urgency/importance contribution of the keyword loops:
`min(occurrences * 0.15, 0.5)` when the keyword matches, else nothing. -/
def keywordContribution (text : String) (kw : String) : ℚ :=
  if 0 < countMatches text.data kw.data then
    min ((countMatches text.data kw.data : ℚ) * 0.15) 0.5
  else 0

/-- Whether a keyword has at least one whole-word match in `text`. -/
def keywordMatched (text : String) (kw : String) : Bool :=
  decide (0 < countMatches text.data kw.data)

/-- A keyword-loop reason string, as recognised in a mixed reason list
(a reason beginning with the urgent-keyword reason template text). -/
def isUrgentKeywordReason (r : String) : Bool :=
  "Contains urgent keyword".data.isPrefixOf r.data

/-- Concrete fixture: an active IMAP account with custom keyword lists. -/
def exPlainAcct : EmailAccount :=
  { id := 1, accountName := "plain", email := "p@x.io", provider := "imap",
    isActive := true, defaultMailbox := "INBOX",
    customUrgentKeywords := ["x"], customImportantKeywords := ["y"] }

/-- Concrete fixture: a second active account with a distinct id. -/
def exAcct2 : EmailAccount :=
  { id := 2, accountName := "second", email := "q@x.io", provider := "imap",
    isActive := true, defaultMailbox := "INBOX",
    customUrgentKeywords := ["x"], customImportantKeywords := ["y"] }

/-- Concrete fixture: a disabled account. -/
def exInactiveAcct : EmailAccount :=
  { id := 3, accountName := "off", email := "r@x.io", provider := "imap",
    isActive := false, defaultMailbox := "INBOX",
    customUrgentKeywords := [], customImportantKeywords := [] }

/-- Concrete fixture: a read, attachment-free message received at epoch 0. -/
def exPlainMsg : EmailMessage :=
  { id := "m1", subject := "a", fromAddr := "s@x.io", toAddrs := ["p@x.io"],
    body := "", snippet := "", receivedAtMs := 0, isRead := true,
    hasAttachments := false, labels := [] }

/-- Concrete fixture: the account of the spec scenario with
`customUrgentKeywords = ["asap"]`. -/
def exAsapAcct : EmailAccount :=
  { id := 4, accountName := "asap-acct", email := "a@x.io", provider := "imap",
    isActive := true, defaultMailbox := "INBOX",
    customUrgentKeywords := ["asap"], customImportantKeywords := ["zzz"] }

/-- Concrete fixture: the message of the spec scenario with subject
`Need this ASAP please`. -/
def exAsapMsg : EmailMessage :=
  { id := "m2", subject := "Need this ASAP please", fromAddr := "s@x.io",
    toAddrs := ["a@x.io"], body := "", snippet := "", receivedAtMs := 0,
    isRead := true, hasAttachments := false, labels := [] }

/-- Concrete fixture: classified result with urgency 0.9, importance 0.1. -/
def exR1 : ClassifiedEmail :=
  { id := "r1", accountId := 1, accountName := "plain", subject := "",
    fromAddr := "", recipients := [], snippet := "", receivedAtMs := 0,
    isRead := true, hasAttachments := false, isUrgent := true,
    isImportant := false, urgencyScore := 0.9, importanceScore := 0.1,
    importanceReason := [] }

/-- Concrete fixture: classified result with urgency 0.1, importance 0.9. -/
def exR2 : ClassifiedEmail :=
  { id := "r2", accountId := 1, accountName := "plain", subject := "",
    fromAddr := "", recipients := [], snippet := "", receivedAtMs := 0,
    isRead := true, hasAttachments := false, isUrgent := false,
    isImportant := true, urgencyScore := 0.1, importanceScore := 0.9,
    importanceReason := [] }

/-- Concrete fixture: a provider `search` that always throws. -/
def fetchNever : EmailAccount → String → Nat → Except String (List EmailMessage) :=
  fun _ _ _ => .error "unreachable"

/-- Concrete fixture: a provider `search` that returns one fixed message. -/
def fetchOne : EmailAccount → String → Nat → Except String (List EmailMessage) :=
  fun _ _ _ => .ok [exPlainMsg]

/-- Concrete fixture: a provider `search` that returns the same message
id twice in one response. -/
def fetchTwice : EmailAccount → String → Nat → Except String (List EmailMessage) :=
  fun _ _ _ => .ok [exPlainMsg, exPlainMsg]

/-- Concrete fixture: a provider `search` that throws for account id 1
and succeeds elsewhere. -/
def fetchFailFirst : EmailAccount → String → Nat → Except String (List EmailMessage) :=
  fun a _ _ => if a.id = 1 then .error "net down" else .ok [exPlainMsg]

/-- Concrete fixture: a provider `fetchUrgent` that always throws. -/
def fetchUrgentNever : EmailAccount → Nat → Except String (List EmailMessage) :=
  fun _ _ => .error "unreachable"

/-- Decimal re-parsing step, used to show that the string `toString id`
inside a composite deduplication key determines the id. -/
def digitFoldStep (a : Nat) (c : Char) : Nat :=
  a * 10 + (c.toNat - 48)

/-- The deduplication invariant of the fan-out loop of `searchEmails`:
result keys are pairwise distinct and every emitted result's key has been
recorded in `seen`. -/
def SearchInv (st : SearchState) : Prop :=
  (st.results.map keyOf).Nodup ∧ ∀ r ∈ st.results, keyOf r ∈ st.seen

lemma scanStep_fst_le (text kind : String) (acc : ℚ × List String) (kw : String) :
    acc.1 ≤ (scanStep text kind acc kw).1 := by
  simp only [scanStep]
  split
  · have h : (0:ℚ) ≤ min ((countMatches text.data kw.data : ℚ) * 0.15) 0.5 :=
      le_min (by positivity) (by norm_num)
    simp only [Prod.fst]
    linarith
  · exact le_rfl

lemma scan_foldl_fst_mono (text kind : String) :
    ∀ (kws : List String) (acc : ℚ × List String),
      acc.1 ≤ (kws.foldl (scanStep text kind) acc).1
  | [], _ => le_rfl
  | kw :: kws, acc =>
    le_trans (scanStep_fst_le text kind acc kw)
      (scan_foldl_fst_mono text kind kws (scanStep text kind acc kw))

lemma scanKeywords_fst_nonneg (text kws kind) :
    0 ≤ (scanKeywords text kws kind).1 :=
  scan_foldl_fst_mono text kind kws (0, [])

lemma scan_foldl_spec (text kind : String) (kws : List String) :
    ∀ (acc : ℚ × List String),
      kws.foldl (scanStep text kind) acc
        = (acc.1 + (kws.map (keywordContribution text)).sum,
           acc.2 ++ (kws.filter (keywordMatched text)).map (keywordReason kind)) := by
  induction kws with
  | nil => intro acc; simp
  | cons kw kws ih =>
    intro acc
    simp only [List.foldl_cons, ih, List.map_cons, List.sum_cons, List.filter_cons]
    by_cases h : 0 < countMatches text.data kw.data
    · simp only [scanStep, keywordContribution, keywordMatched, h, if_pos,
        decide_true_eq_true, List.map_cons, decide_eq_true_eq]
      refine Prod.ext ?_ ?_ <;> simp [h]
      ring
    · simp only [scanStep, keywordContribution, keywordMatched, h, if_neg]
      refine Prod.ext ?_ ?_ <;> simp [h]

lemma scanKeywords_spec (text kws kind) :
    scanKeywords text kws kind
      = ((kws.map (keywordContribution text)).sum,
         (kws.filter (keywordMatched text)).map (keywordReason kind)) := by
  simpa using scan_foldl_spec text kind kws (0, [])

lemma classifyEmail_eq (m : EmailMessage) (a : EmailAccount) (now : Int) :
    classifyEmail m a now =
      { isUrgent := decide ((0.3 : ℚ) ≤ urgencyRaw m a now)
        isImportant := decide ((0.3 : ℚ) ≤ importanceRaw m a now)
        urgencyScore := min (urgencyRaw m a now) 1
        importanceScore := min (importanceRaw m a now) 1
        reasons := classifyReasons m a now } := rfl

lemma urgencyRaw_nonneg (m : EmailMessage) (a : EmailAccount) (now : Int) :
    0 ≤ urgencyRaw m a now := by
  have h0 : 0 ≤ (scanKeywords (classifyText m) (effectiveUrgentKeywords a) "urgent").1 :=
    scanKeywords_fst_nonneg _ _ _
  simp only [urgencyRaw]
  set u0 := (scanKeywords (classifyText m) (effectiveUrgentKeywords a) "urgent").1 with hu0
  set u1 := if !m.isRead then u0 + 0.2 else u0 with hu1
  have h1 : 0 ≤ u1 := by rw [hu1]; split <;> linarith
  set u3 := if gmailLabelHit m a then min (u1 + 0.3) 1 else u1 with hu3
  have h3 : 0 ≤ u3 := by
    rw [hu3]; split
    · exact le_min (by linarith) (by norm_num)
    · exact h1
  split <;> linarith

lemma importanceRaw_nonneg (m : EmailMessage) (a : EmailAccount) (now : Int) :
    0 ≤ importanceRaw m a now := by
  have h0 : 0 ≤ (scanKeywords (classifyText m) (effectiveImportantKeywords a) "important").1 :=
    scanKeywords_fst_nonneg _ _ _
  simp only [importanceRaw]
  set i0 := (scanKeywords (classifyText m) (effectiveImportantKeywords a) "important").1 with hi0
  set i1 := if !m.isRead then i0 + 0.1 else i0 with hi1
  have h1 : 0 ≤ i1 := by rw [hi1]; split <;> linarith
  set i2 := if m.hasAttachments then i1 + 0.25 else i1 with hi2
  have h2 : 0 ≤ i2 := by rw [hi2]; split <;> linarith
  split
  · exact le_min (by linarith) (by norm_num)
  · exact h2

lemma min_one_thresh {x : ℚ} : ((0.3 : ℚ) ≤ min x 1) ↔ ((0.3 : ℚ) ≤ x) := by
  rw [le_min_iff]
  constructor
  · rintro ⟨h, _⟩; exact h
  · intro h; exact ⟨h, by norm_num⟩

/-- C1: for every message and account keyword configuration (and any
clock reading), the scores returned by `classifyEmail` lie in `[0, 1]`,
and the returned `isUrgent` (resp. `isImportant`) flag is true exactly
when the returned `urgencyScore` (resp. `importanceScore`) is at least
0.3. -/
theorem c1_scores_in_unit_interval_and_flag_thresholds
    (m : EmailMessage) (a : EmailAccount) (now : Int) :
    0 ≤ (classifyEmail m a now).urgencyScore ∧
    (classifyEmail m a now).urgencyScore ≤ 1 ∧
    0 ≤ (classifyEmail m a now).importanceScore ∧
    (classifyEmail m a now).importanceScore ≤ 1 ∧
    ((classifyEmail m a now).isUrgent = true ↔
      (0.3 : ℚ) ≤ (classifyEmail m a now).urgencyScore) ∧
    ((classifyEmail m a now).isImportant = true ↔
      (0.3 : ℚ) ≤ (classifyEmail m a now).importanceScore) := by
  rw [classifyEmail_eq]
  refine ⟨le_min (urgencyRaw_nonneg m a now) (by norm_num), min_le_right _ _,
    le_min (importanceRaw_nonneg m a now) (by norm_num), min_le_right _ _, ?_, ?_⟩
  · simpa [decide_eq_true_eq] using min_one_thresh.symm
  · simpa [decide_eq_true_eq] using min_one_thresh.symm

lemma reasons_decomposition (m : EmailMessage) (a : EmailAccount) (now : Int) :
    (classifyEmail m a now).reasons
      = ((effectiveUrgentKeywords a).filter (keywordMatched (classifyText m))).map
          (keywordReason "urgent")
        ++ ((effectiveImportantKeywords a).filter (keywordMatched (classifyText m))).map
          (keywordReason "important")
        ++ (if !m.isRead then ["Email is unread"] else [])
        ++ (if m.hasAttachments then ["Email has attachments"] else [])
        ++ (if gmailLabelHit m a then ["Marked as important/starred in Gmail"] else [])
        ++ (if isRecent m now then ["Received within last 24 hours"] else []) := by
  rw [classifyEmail_eq]
  simp only [classifyReasons, scanKeywords_spec]
  split_ifs <;> simp [List.append_assoc]

/-- C2 (counterexample): the code's classification is not a function of
the message and keyword configuration alone — the same message and the
same account classified at two different wall-clock instants (epoch 0 and
epoch plus two days) produce different results, because of the
`Date.now()`-based recency bonus. -/
theorem c2_counterexample_clock_dependence :
    classifyEmail exPlainMsg exPlainAcct 0
      ≠ classifyEmail exPlainMsg exPlainAcct 172800000 := by
  have hfu : (effectiveUrgentKeywords exPlainAcct).filter
      (keywordMatched (classifyText exPlainMsg)) = [] := by decide
  have hfi : (effectiveImportantKeywords exPlainAcct).filter
      (keywordMatched (classifyText exPlainMsg)) = [] := by decide
  have hread : (!exPlainMsg.isRead) = false := by decide
  have hatt : exPlainMsg.hasAttachments = false := by decide
  have hg : gmailLabelHit exPlainMsg exPlainAcct = false := by decide
  have hrecent : isRecent exPlainMsg 0 = true := by
    simp only [isRecent, decide_eq_true_eq]
    norm_num [exPlainMsg]
  have hlate : isRecent exPlainMsg 172800000 = false := by
    simp only [isRecent, decide_eq_false_iff_not]
    norm_num [exPlainMsg]
  have h1 : (classifyEmail exPlainMsg exPlainAcct 0).reasons
      = ["Received within last 24 hours"] := by
    rw [reasons_decomposition, hfu, hfi]
    simp only [hread, hatt, hg, hrecent]
    simp
  have h2 : (classifyEmail exPlainMsg exPlainAcct 172800000).reasons = [] := by
    rw [reasons_decomposition, hfu, hfi]
    simp only [hread, hatt, hg, hlate]
    simp
  intro h
  rw [h, h2] at h1
  exact List.noConfusion h1

/-- C2 (amended): for a fixed clock reading, classification is
deterministic and idempotent — two calls on the same message, account
keyword configuration and clock value return the same record — and the
reason list is assembled in the fixed step order: urgent-keyword reasons
first (one per matching keyword, in keyword-list order), then
important-keyword reasons (likewise in keyword-list order), then the
unread, attachment, Gmail-label and recency reasons. -/
theorem c2_amended_deterministic_and_reason_order
    (m : EmailMessage) (a : EmailAccount) (now : Int) :
    classifyEmail m a now = classifyEmail m a now ∧
    (classifyEmail m a now).reasons
      = ((effectiveUrgentKeywords a).filter (keywordMatched (classifyText m))).map
          (keywordReason "urgent")
        ++ ((effectiveImportantKeywords a).filter (keywordMatched (classifyText m))).map
          (keywordReason "important")
        ++ (if !m.isRead then ["Email is unread"] else [])
        ++ (if m.hasAttachments then ["Email has attachments"] else [])
        ++ (if gmailLabelHit m a then ["Marked as important/starred in Gmail"] else [])
        ++ (if isRecent m now then ["Received within last 24 hours"] else []) :=
  ⟨rfl, reasons_decomposition m a now⟩

/-- C3: each keyword loop contributes exactly
`min(wholeWordOccurrences * 0.15, 0.5)` per keyword to its score and one
reason per matching keyword in keyword-list order; in the concrete spec
scenario (account with `customUrgentKeywords = ["asap"]`, subject
`Need this ASAP please`), the urgency score is at least 0.15 and the
reason list contains exactly one urgent-keyword reason, the one for
`asap`. -/
theorem c3_whole_word_keyword_scoring :
    (∀ (text : String) (kws : List String) (kind : String),
        scanKeywords text kws kind
          = ((kws.map (keywordContribution text)).sum,
             (kws.filter (keywordMatched text)).map (keywordReason kind))) ∧
    (0.15 : ℚ) ≤ (classifyEmail exAsapMsg exAsapAcct 172800000).urgencyScore ∧
    (classifyEmail exAsapMsg exAsapAcct 172800000).reasons.filter isUrgentKeywordReason
      = [keywordReason "urgent" "asap"] := by
  have hread : (!exAsapMsg.isRead) = false := by decide
  have hatt : exAsapMsg.hasAttachments = false := by decide
  have hg : gmailLabelHit exAsapMsg exAsapAcct = false := by decide
  have hlate : isRecent exAsapMsg 172800000 = false := by
    simp only [isRecent, decide_eq_false_iff_not]
    norm_num [exAsapMsg]
  refine ⟨scanKeywords_spec, ?_, ?_⟩
  · have hu : (scanKeywords (classifyText exAsapMsg)
        (effectiveUrgentKeywords exAsapAcct) "urgent").1 = 0.15 := by
      rw [scanKeywords_spec,
        show effectiveUrgentKeywords exAsapAcct = ["asap"] from by decide]
      simp only [List.map_cons, List.map_nil, List.sum_cons, List.sum_nil,
        keywordContribution,
        show countMatches (classifyText exAsapMsg).data "asap".data = 1 from by decide]
      norm_num [min_def]
    have hraw : urgencyRaw exAsapMsg exAsapAcct 172800000 = 0.15 := by
      simp only [urgencyRaw, hu, hread, hg, hlate, Bool.false_eq_true, if_false]
    rw [classifyEmail_eq]
    simp only [hraw]
    norm_num [min_def]
  · have hfu : (effectiveUrgentKeywords exAsapAcct).filter
        (keywordMatched (classifyText exAsapMsg)) = ["asap"] := by decide
    have hfi : (effectiveImportantKeywords exAsapAcct).filter
        (keywordMatched (classifyText exAsapMsg)) = [] := by decide
    rw [reasons_decomposition, hfu, hfi]
    simp only [hread, hatt, hg, hlate]
    simp only [List.map_cons, List.map_nil, List.append_nil, Bool.false_eq_true,
      if_false, List.nil_append, List.filter_cons, List.filter_nil]
    decide

lemma digitFoldStep_digitChar (a d : Nat) (h : d < 10) :
    digitFoldStep a (Nat.digitChar d) = a * 10 + d := by
  interval_cases d <;> simp [digitFoldStep, Nat.digitChar]

lemma toDigitsCore_foldl (fuel : Nat) :
    ∀ (n : Nat) (ds : List Char) (acc : Nat), n < 10 ^ fuel →
      ∃ k, (Nat.toDigitsCore 10 fuel n ds).foldl digitFoldStep acc
        = ds.foldl digitFoldStep (acc * 10 ^ k + n) := by
  induction fuel with
  | zero =>
    intro n ds acc h
    have hn : n = 0 := by simpa using Nat.lt_one_iff.mp (by simpa using h)
    subst hn
    exact ⟨0, by simp [Nat.toDigitsCore]⟩
  | succ fuel ih =>
    intro n ds acc h
    by_cases h0 : n / 10 = 0
    · refine ⟨1, ?_⟩
      have hlt : n < 10 := by omega
      have hmod : n % 10 = n := Nat.mod_eq_of_lt hlt
      simp only [Nat.toDigitsCore, h0, if_pos, List.foldl_cons]
      rw [hmod, digitFoldStep_digitChar acc n hlt]
      norm_num
    · have hdiv : n / 10 < 10 ^ fuel := by
        rw [Nat.div_lt_iff_lt_mul (by norm_num)]
        calc n < 10 ^ (fuel + 1) := h
          _ = 10 ^ fuel * 10 := by ring
      obtain ⟨k, hk⟩ := ih (n / 10) (Nat.digitChar (n % 10) :: ds) acc hdiv
      refine ⟨k + 1, ?_⟩
      have hstep : Nat.toDigitsCore 10 (fuel + 1) n ds
          = Nat.toDigitsCore 10 fuel (n / 10) (Nat.digitChar (n % 10) :: ds) := by
        simp only [Nat.toDigitsCore, h0, if_neg]
        simp
      rw [hstep, hk, List.foldl_cons,
        digitFoldStep_digitChar _ _ (Nat.mod_lt _ (by norm_num))]
      have hdm : n / 10 * 10 + n % 10 = n := by omega
      have : (acc * 10 ^ k + n / 10) * 10 + n % 10 = acc * 10 ^ (k + 1) + n := by
        rw [pow_succ]
        nlinarith [hdm]
      rw [this]

lemma parse_toDigits (n : Nat) : (Nat.toDigits 10 n).foldl digitFoldStep 0 = n := by
  have h : n < 10 ^ (n + 1) := by
    calc n < 2 ^ (n + 1) := (Nat.lt_two_pow n).trans (Nat.pow_lt_pow_succ (by norm_num))
      _ ≤ 10 ^ (n + 1) := Nat.pow_le_pow_left (by norm_num) _
  obtain ⟨k, hk⟩ := toDigitsCore_foldl (n + 1) n [] 0 h
  simpa [Nat.toDigits] using hk

lemma natRepr_injective {m n : Nat} (h : Nat.repr m = Nat.repr n) : m = n := by
  have hd : Nat.toDigits 10 m = Nat.toDigits 10 n := by
    have := congrArg String.data h
    simpa [Nat.repr, List.asString] using this
  have := congrArg (fun l => List.foldl digitFoldStep 0 l) hd
  simpa [parse_toDigits] using this

lemma mkKey_ne_of_id_ne {a b : Nat} (h : a ≠ b) (msgId : String) :
    mkKey a msgId ≠ mkKey b msgId := by
  intro he
  apply h
  have hd := congrArg String.data he
  simp only [mkKey, String.data_append] at hd
  have h2 := List.append_cancel_right hd
  have h3 := List.append_cancel_right h2
  exact natRepr_injective (String.ext h3 : (toString a : String) = toString b)

lemma keyOf_toClassified (a : EmailAccount) (m : EmailMessage) (c : Classification) :
    keyOf (toClassified a m c) = mkKey a.id m.id := rfl

lemma processMessage_skip (now : Int) (a : EmailAccount) (st : SearchState)
    (m : EmailMessage) (h : st.seen.contains (mkKey a.id m.id) = true) :
    processMessage now a st m = st := by
  have hmem : mkKey a.id m.id ∈ st.seen := List.elem_iff.mp h
  simp [processMessage, h, hmem]

lemma processMessage_add (now : Int) (a : EmailAccount) (st : SearchState)
    (m : EmailMessage) (h : st.seen.contains (mkKey a.id m.id) = false) :
    processMessage now a st m =
      ⟨st.results ++ [toClassified a m (classifyEmail m a now)],
       st.seen ++ [mkKey a.id m.id],
       st.cacheWrites ++ [(a.id, m.id)]⟩ := by
  have hmem : mkKey a.id m.id ∉ st.seen := by
    intro hm
    have ht : st.seen.contains (mkKey a.id m.id) = true := List.elem_iff.mpr hm
    rw [h] at ht
    exact Bool.noConfusion ht
  simp [processMessage, h, hmem]

lemma processMessage_inv (now : Int) (a : EmailAccount) (st : SearchState)
    (m : EmailMessage) (h : SearchInv st) : SearchInv (processMessage now a st m) := by
  obtain ⟨h1, h2⟩ := h
  by_cases hc : st.seen.contains (mkKey a.id m.id) = true
  · rw [processMessage_skip now a st m hc]; exact ⟨h1, h2⟩
  · have hc' : st.seen.contains (mkKey a.id m.id) = false := by
      simpa using hc
    have hnotin : mkKey a.id m.id ∉ st.seen := by
      intro hmem
      exact hc (List.elem_iff.mpr hmem)
    rw [processMessage_add now a st m hc']
    constructor
    · simp only [List.map_append, List.map_cons, List.map_nil, keyOf_toClassified]
      rw [List.nodup_append]
      refine ⟨h1, List.nodup_singleton _, ?_⟩
      intro x hx hx2
      simp only [List.mem_singleton] at hx2
      subst hx2
      obtain ⟨r, hr, hkr⟩ := List.mem_map.mp hx
      exact hnotin (hkr ▸ h2 r hr)
    · intro r hr
      rcases List.mem_append.mp hr with hold | hnew
      · exact List.mem_append.mpr (Or.inl (h2 r hold))
      · simp only [List.mem_singleton] at hnew
        subst hnew
        exact List.mem_append.mpr (Or.inr (by simp [keyOf_toClassified]))

lemma foldl_processMessage_inv (now : Int) (a : EmailAccount) :
    ∀ (msgs : List EmailMessage) (st : SearchState), SearchInv st →
      SearchInv (msgs.foldl (processMessage now a) st)
  | [], _, h => h
  | m :: ms, st, h =>
    foldl_processMessage_inv now a ms _ (processMessage_inv now a st m h)

lemma processAccount_inv (fetch : EmailAccount → String → Nat → Except String (List EmailMessage))
    (q : String) (mr : Nat) (now : Int) (st : SearchState) (a : EmailAccount)
    (h : SearchInv st) : SearchInv (processAccount fetch q mr now st a) := by
  simp only [processAccount]
  split
  · exact foldl_processMessage_inv now a _ st h
  · exact h

lemma collect_foldl_inv (fetch : EmailAccount → String → Nat → Except String (List EmailMessage))
    (q : String) (mr : Nat) (now : Int) :
    ∀ (accounts : List EmailAccount) (st : SearchState), SearchInv st →
      SearchInv (accounts.foldl (processAccount fetch q mr now) st)
  | [], _, h => h
  | a :: as, st, h =>
    collect_foldl_inv fetch q mr now as _ (processAccount_inv fetch q mr now st a h)

lemma collectResults_inv (fetch : EmailAccount → String → Nat → Except String (List EmailMessage))
    (q : String) (mr : Nat) (now : Int) (accounts : List EmailAccount) :
    SearchInv (collectResults fetch q mr now accounts) :=
  collect_foldl_inv fetch q mr now accounts ⟨[], [], []⟩ ⟨by simp, by simp⟩

lemma contains_eq_false_iff {l : List String} {k : String} :
    l.contains k = false ↔ k ∉ l := by
  rw [Bool.eq_false_iff]
  exact not_congr List.elem_iff

lemma contains_singleton_of_ne {k k' : String} (h : k' ≠ k) :
    [k].contains k' = false :=
  contains_eq_false_iff.mpr (by simp [h])

/-- C4: `searchEmails` deduplicates by the composite key
`(account id, provider-native message id)` with the first occurrence
winning: (a) two accounts with distinct ids each returning a message with
the same provider-native id yield two distinct results, both present in
the output; (b) one account returning the same message id twice in one
fan-out yields exactly one classified result; (c) no successful output
ever contains two results with the same (account id, message id) pair. -/
theorem c4_dedup_by_account_and_message_id :
    (∀ (a1 a2 : EmailAccount) (m : EmailMessage)
        (fetch : EmailAccount → String → Nat → Except String (List EmailMessage))
        (q : String) (mr : Nat) (now : Int),
      a1.isActive = true → a2.isActive = true → a1.id ≠ a2.id →
      fetch a1 q (mr * 2) = .ok [m] → fetch a2 q (mr * 2) = .ok [m] → 2 ≤ mr →
      ∃ out, searchEmailsSvc [a1, a2] fetch q none mr now = .ok out ∧
        toClassified a1 m (classifyEmail m a1 now) ∈ out ∧
        toClassified a2 m (classifyEmail m a2 now) ∈ out ∧
        toClassified a1 m (classifyEmail m a1 now)
          ≠ toClassified a2 m (classifyEmail m a2 now)) ∧
    (∀ (a : EmailAccount) (m m' : EmailMessage)
        (fetch : EmailAccount → String → Nat → Except String (List EmailMessage))
        (q : String) (mr : Nat) (now : Int),
      a.isActive = true → m'.id = m.id → fetch a q (mr * 2) = .ok [m, m'] → 1 ≤ mr →
      searchEmailsSvc [a] fetch q none mr now
        = .ok [toClassified a m (classifyEmail m a now)]) ∧
    (∀ (db : List EmailAccount)
        (fetch : EmailAccount → String → Nat → Except String (List EmailMessage))
        (q : String) (req : Option (List Nat)) (mr : Nat) (now : Int)
        (out : List ClassifiedEmail),
      searchEmailsSvc db fetch q req mr now = .ok out →
      out.Pairwise (fun x y => ¬(x.accountId = y.accountId ∧ x.id = y.id))) := by
  refine ⟨?_, ?_, ?_⟩
  · intro a1 a2 m fetch q mr now h1 h2 hne hf1 hf2 hmr
    have hres : resolveAccounts [a1, a2] none = [a1, a2] := by
      simp [resolveAccounts, listActiveAccounts, h1, h2]
    have hkne : mkKey a2.id m.id ≠ mkKey a1.id m.id :=
      mkKey_ne_of_id_ne (Ne.symm hne) m.id
    have hstep1 : processAccount fetch q mr now ⟨[], [], []⟩ a1
        = ⟨[toClassified a1 m (classifyEmail m a1 now)], [mkKey a1.id m.id],
           [(a1.id, m.id)]⟩ := by
      simp only [processAccount, hf1, List.foldl_cons, List.foldl_nil]
      rw [processMessage_add now a1 ⟨[], [], []⟩ m rfl]
      simp
    have hstep2 : processAccount fetch q mr now
        ⟨[toClassified a1 m (classifyEmail m a1 now)], [mkKey a1.id m.id],
         [(a1.id, m.id)]⟩ a2
        = ⟨[toClassified a1 m (classifyEmail m a1 now),
            toClassified a2 m (classifyEmail m a2 now)],
           [mkKey a1.id m.id, mkKey a2.id m.id],
           [(a1.id, m.id), (a2.id, m.id)]⟩ := by
      simp only [processAccount, hf2, List.foldl_cons, List.foldl_nil]
      rw [processMessage_add now a2 _ m (contains_singleton_of_ne hkne)]
      simp
    have hcol : collectResults fetch q mr now [a1, a2]
        = ⟨[toClassified a1 m (classifyEmail m a1 now),
            toClassified a2 m (classifyEmail m a2 now)],
           [mkKey a1.id m.id, mkKey a2.id m.id],
           [(a1.id, m.id), (a2.id, m.id)]⟩ := by
      simp only [collectResults, List.foldl_cons, List.foldl_nil, hstep1, hstep2]
    have hlen : (rankResults [toClassified a1 m (classifyEmail m a1 now),
        toClassified a2 m (classifyEmail m a2 now)]).length = 2 := by
      simp [rankResults, List.length_mergeSort]
    refine ⟨rankResults [toClassified a1 m (classifyEmail m a1 now),
      toClassified a2 m (classifyEmail m a2 now)], ?_, ?_, ?_, ?_⟩
    · simp only [searchEmailsSvc, hres, hcol]
      rw [if_neg (by simp)]
      rw [List.take_of_length_le (le_trans hlen.le hmr)]
    · exact ((List.mergeSort_perm _ _).mem_iff).mpr (by simp)
    · exact ((List.mergeSort_perm _ _).mem_iff).mpr (by simp)
    · intro h
      have := congrArg ClassifiedEmail.accountId h
      simp only [toClassified] at this
      exact hne this
  · intro a m m' fetch q mr now ha hid hf hmr
    have hres : resolveAccounts [a] none = [a] := by
      simp [resolveAccounts, listActiveAccounts, ha]
    have hseen : (SearchState.mk [toClassified a m (classifyEmail m a now)]
        [mkKey a.id m.id] [(a.id, m.id)]).seen.contains (mkKey a.id m'.id) = true := by
      rw [hid]
      exact List.elem_iff.mpr (by simp)
    have hstep : processAccount fetch q mr now ⟨[], [], []⟩ a
        = ⟨[toClassified a m (classifyEmail m a now)], [mkKey a.id m.id],
           [(a.id, m.id)]⟩ := by
      simp only [processAccount, hf, List.foldl_cons, List.foldl_nil]
      rw [processMessage_add now a ⟨[], [], []⟩ m rfl]
      simp only []
      rw [processMessage_skip now a _ m' (by simpa using hseen)]
      simp
    have hcol : collectResults fetch q mr now [a]
        = ⟨[toClassified a m (classifyEmail m a now)], [mkKey a.id m.id],
           [(a.id, m.id)]⟩ := by
      simp only [collectResults, List.foldl_cons, List.foldl_nil, hstep]
    simp only [searchEmailsSvc, hres, hcol]
    rw [if_neg (by simp)]
    rw [rankResults, List.mergeSort_singleton,
      List.take_of_length_le (by simpa using hmr)]
  · intro db fetch q req mr now out h
    have hinv := collectResults_inv fetch q mr now (resolveAccounts db req)
    simp only [searchEmailsSvc] at h
    by_cases hlen : (resolveAccounts db req).length = 0
    · rw [if_pos hlen] at h
      exact absurd h (by simp)
    · rw [if_neg hlen] at h
      have hout : out = (rankResults
          (collectResults fetch q mr now (resolveAccounts db req)).results).take mr :=
        (Except.ok.inj h).symm
      subst hout
      have h1 : ((collectResults fetch q mr now (resolveAccounts db req)).results.map keyOf).Nodup :=
        hinv.1
      have hperm := (List.mergeSort_perm
        (collectResults fetch q mr now (resolveAccounts db req)).results
        (fun a b => decide (rankScore b ≤ rankScore a))).map keyOf
      have h2 : ((rankResults
          (collectResults fetch q mr now (resolveAccounts db req)).results).map keyOf).Nodup :=
        hperm.nodup_iff.mpr h1
      have h3 : (((rankResults
          (collectResults fetch q mr now (resolveAccounts db req)).results).take mr).map keyOf).Nodup := by
        rw [List.map_take]
        exact (List.take_sublist mr _).nodup h2
    -- turn key distinctness into pair distinctness
      have h4 := (List.pairwise_map.mp h3)
      exact h4.imp (fun hxy hpair => hxy (by
        show mkKey _ _ = mkKey _ _
        rw [hpair.1, hpair.2]))

lemma svc_allfail_singleton_eval :
    searchEmailsSvc [exPlainAcct] fetchNever "q" none 5 0 = .ok [] := by
  simp [searchEmailsSvc, resolveAccounts, listActiveAccounts, exPlainAcct,
    collectResults, processAccount, fetchNever, rankResults, List.mergeSort_nil]

/-- Witness for C4 at concrete inputs: two single-message accounts with
ids 1 and 2, one account answering the same id twice, and a concrete
successful (empty) run for the pairwise-distinctness part. -/
theorem c4_dedup_by_account_and_message_id_witness :
    (∃ out, searchEmailsSvc [exPlainAcct, exAcct2] fetchOne "q" none 2 0 = .ok out ∧
      toClassified exPlainAcct exPlainMsg (classifyEmail exPlainMsg exPlainAcct 0) ∈ out ∧
      toClassified exAcct2 exPlainMsg (classifyEmail exPlainMsg exAcct2 0) ∈ out ∧
      toClassified exPlainAcct exPlainMsg (classifyEmail exPlainMsg exPlainAcct 0)
        ≠ toClassified exAcct2 exPlainMsg (classifyEmail exPlainMsg exAcct2 0)) ∧
    searchEmailsSvc [exPlainAcct] fetchTwice "q" none 1 0
      = .ok [toClassified exPlainAcct exPlainMsg (classifyEmail exPlainMsg exPlainAcct 0)] ∧
    (List.Pairwise (fun x y => ¬(x.accountId = y.accountId ∧ x.id = y.id))
      ([] : List ClassifiedEmail)) :=
  ⟨c4_dedup_by_account_and_message_id.1 exPlainAcct exAcct2 exPlainMsg fetchOne "q" 2 0
      rfl rfl (by decide) rfl rfl (by norm_num),
   c4_dedup_by_account_and_message_id.2.1 exPlainAcct exPlainMsg exPlainMsg fetchTwice
      "q" 1 0 rfl rfl rfl (by norm_num),
   c4_dedup_by_account_and_message_id.2.2 [exPlainAcct] fetchNever "q" none 5 0 []
      svc_allfail_singleton_eval⟩

/-- C5: partial-failure tolerance — with two resolved accounts, a thrown
provider call on the first and a successful one on the second, the
overall `searchEmails` run does not raise and returns exactly what a run
over the surviving account alone returns. -/
theorem c5_partial_failure_tolerance
    (a1 a2 : EmailAccount)
    (fetch : EmailAccount → String → Nat → Except String (List EmailMessage))
    (q : String) (mr : Nat) (now : Int) (msgs : List EmailMessage) (e : String)
    (h1 : a1.isActive = true) (h2 : a2.isActive = true)
    (hf1 : fetch a1 q (mr * 2) = .error e)
    (_hf2 : fetch a2 q (mr * 2) = .ok msgs) :
    searchEmailsSvc [a1, a2] fetch q none mr now
      = searchEmailsSvc [a2] fetch q none mr now ∧
    (searchEmailsSvc [a1, a2] fetch q none mr now).isOk = true := by
  have hres2 : resolveAccounts [a1, a2] none = [a1, a2] := by
    simp [resolveAccounts, listActiveAccounts, h1, h2]
  have hres1 : resolveAccounts [a2] none = [a2] := by
    simp [resolveAccounts, listActiveAccounts, h2]
  have hskip : processAccount fetch q mr now ⟨[], [], []⟩ a1 = ⟨[], [], []⟩ := by
    simp [processAccount, hf1]
  have hcol : collectResults fetch q mr now [a1, a2]
      = collectResults fetch q mr now [a2] := by
    simp only [collectResults, List.foldl_cons, List.foldl_nil, hskip]
  constructor
  · simp only [searchEmailsSvc, hres2, hres1, hcol]
    rw [if_neg (by simp), if_neg (by simp)]
  · simp only [searchEmailsSvc, hres2]
    rw [if_neg (by simp)]
    rfl

/-- Witness for C5: account id 1 unreachable, account id 2 returning one
message. -/
theorem c5_partial_failure_tolerance_witness :
    searchEmailsSvc [exPlainAcct, exAcct2] fetchFailFirst "q" none 3 0
      = searchEmailsSvc [exAcct2] fetchFailFirst "q" none 3 0 ∧
    (searchEmailsSvc [exPlainAcct, exAcct2] fetchFailFirst "q" none 3 0).isOk = true :=
  c5_partial_failure_tolerance exPlainAcct exAcct2 fetchFailFirst "q" 3 0
    [exPlainMsg] "net down" rfl rfl rfl rfl

/-- C6: every successful `searchEmails` output is ordered by
`urgencyScore * 2 + importanceScore` descending and has at most
`maxResults` elements; concretely, ranking puts a result with urgency 0.9
and importance 0.1 (score 1.9) above one with urgency 0.1 and importance
0.9 (score 1.1). -/
theorem c6_rank_descending_and_truncate :
    (∀ (db : List EmailAccount)
        (fetch : EmailAccount → String → Nat → Except String (List EmailMessage))
        (q : String) (req : Option (List Nat)) (mr : Nat) (now : Int)
        (out : List ClassifiedEmail),
      searchEmailsSvc db fetch q req mr now = .ok out →
      out.Pairwise (fun x y => rankScore y ≤ rankScore x) ∧ out.length ≤ mr) ∧
    rankResults [exR2, exR1] = [exR1, exR2] := by
  constructor
  · intro db fetch q req mr now out h
    simp only [searchEmailsSvc] at h
    by_cases hlen : (resolveAccounts db req).length = 0
    · rw [if_pos hlen] at h
      exact absurd h (by simp)
    · rw [if_neg hlen] at h
      have hout := (Except.ok.inj h).symm
      subst hout
      constructor
      · have hsorted := @List.sorted_mergeSort ClassifiedEmail
          (fun a b => decide (rankScore b ≤ rankScore a))
          (fun a b c hab hbc => by
            simp only [decide_eq_true_eq] at *
            exact le_trans hbc hab)
          (fun a b => by
            simp only [Bool.or_eq_true, decide_eq_true_eq]
            exact le_total (rankScore b) (rankScore a))
          (collectResults fetch q mr now (resolveAccounts db req)).results
        have hp : (rankResults
            (collectResults fetch q mr now (resolveAccounts db req)).results).Pairwise
            (fun x y => rankScore y ≤ rankScore x) :=
          hsorted.imp (fun hxy => by simpa using hxy)
        exact hp.sublist (List.take_sublist mr _)
      · rw [List.length_take]
        exact min_le_left _ _
  · norm_num [rankResults, List.mergeSort, List.merge, rankScore, exR1, exR2]

/-- Witness for C6 at a concrete successful run. -/
theorem c6_rank_descending_and_truncate_witness :
    ([] : List ClassifiedEmail).Pairwise (fun x y => rankScore y ≤ rankScore x) ∧
    ([] : List ClassifiedEmail).length ≤ 5 :=
  c6_rank_descending_and_truncate.1 [exPlainAcct] fetchNever "q" none 5 0 []
    svc_allfail_singleton_eval

lemma foldl_processAccount_allfail
    (fetch : EmailAccount → String → Nat → Except String (List EmailMessage))
    (q : String) (mr : Nat) (now : Int) :
    ∀ (accounts : List EmailAccount) (st : SearchState),
      (∀ a ∈ accounts, ∃ e, fetch a q (mr * 2) = .error e) →
      accounts.foldl (processAccount fetch q mr now) st = st
  | [], _, _ => rfl
  | a :: as, st, h => by
    obtain ⟨e, he⟩ := h a (by simp)
    rw [List.foldl_cons,
      show processAccount fetch q mr now st a = st from by simp [processAccount, he]]
    exact foldl_processAccount_allfail fetch q mr now as st
      (fun b hb => h b (by simp [hb]))

lemma foldl_processUrgentAccount_allfail
    (fetchUrgent : EmailAccount → Nat → Except String (List EmailMessage))
    (mr : Nat) (now : Int) :
    ∀ (accounts : List EmailAccount) (st : UrgentState),
      (∀ a ∈ accounts, ∃ e, fetchUrgent a (mr * 2) = .error e) →
      accounts.foldl (processUrgentAccount fetchUrgent mr now) st = st
  | [], _, _ => rfl
  | a :: as, st, h => by
    obtain ⟨e, he⟩ := h a (by simp)
    rw [List.foldl_cons,
      show processUrgentAccount fetchUrgent mr now st a = st from by
        simp [processUrgentAccount, he]]
    exact foldl_processUrgentAccount_allfail fetchUrgent mr now as st
      (fun b hb => h b (by simp [hb]))

/-- C7 (counterexample): the code's empty-scope behaviour differs from the
claim on all three distinguishing points — with one active but unreachable
account both operations return an ordinary empty result instead of an
error, and the no-accounts-configured and no-active-accounts cases raise
the same generic message, so nothing distinguishes them. -/
theorem c7_counterexample_no_accounts_error :
    searchEmailsSvc [exPlainAcct] fetchNever "q" none 5 0 = .ok [] ∧
    searchEmailsSvc [] fetchNever "q" none 5 0
      = .error "No email accounts available for search" ∧
    searchEmailsSvc [exInactiveAcct] fetchNever "q" none 5 0
      = .error "No email accounts available for search" ∧
    getUrgentSvc [exPlainAcct] fetchUrgentNever 5 0 = .ok ([], []) ∧
    getUrgentSvc [] fetchUrgentNever 5 0 = .error "No email accounts configured" := by
  refine ⟨svc_allfail_singleton_eval, ?_, ?_, ?_, ?_⟩
  · simp [searchEmailsSvc, resolveAccounts, listActiveAccounts]
  · simp [searchEmailsSvc, resolveAccounts, listActiveAccounts, exInactiveAcct]
  · simp [getUrgentSvc, listActiveAccounts, exPlainAcct, processUrgentAccount,
      fetchUrgentNever, List.mergeSort_nil]
  · simp [getUrgentSvc, listActiveAccounts]

/-- C7 (amended): when the resolved account set is empty, `searchEmails`
throws the one generic error `No email accounts available for search` and
`getUrgentAndImportantEmails` throws `No email accounts configured` —
one fixed message per operation, with no distinction between the
no-accounts-configured and no-active-accounts cases; and when accounts do
resolve but every provider call fails, both operations return an
ordinary empty result rather than raising. -/
theorem c7_amended_empty_scope_behaviour :
    (∀ (db : List EmailAccount)
        (fetch : EmailAccount → String → Nat → Except String (List EmailMessage))
        (q : String) (req : Option (List Nat)) (mr : Nat) (now : Int),
      resolveAccounts db req = [] →
      searchEmailsSvc db fetch q req mr now
        = .error "No email accounts available for search") ∧
    (∀ (db : List EmailAccount)
        (fetchUrgent : EmailAccount → Nat → Except String (List EmailMessage))
        (mr : Nat) (now : Int),
      listActiveAccounts db = [] →
      getUrgentSvc db fetchUrgent mr now = .error "No email accounts configured") ∧
    (∀ (db : List EmailAccount)
        (fetch : EmailAccount → String → Nat → Except String (List EmailMessage))
        (q : String) (req : Option (List Nat)) (mr : Nat) (now : Int),
      resolveAccounts db req ≠ [] →
      (∀ a ∈ resolveAccounts db req, ∃ e, fetch a q (mr * 2) = .error e) →
      searchEmailsSvc db fetch q req mr now = .ok []) ∧
    (∀ (db : List EmailAccount)
        (fetchUrgent : EmailAccount → Nat → Except String (List EmailMessage))
        (mr : Nat) (now : Int),
      listActiveAccounts db ≠ [] →
      (∀ a ∈ listActiveAccounts db, ∃ e, fetchUrgent a (mr * 2) = .error e) →
      getUrgentSvc db fetchUrgent mr now = .ok ([], [])) := by
  refine ⟨?_, ?_, ?_, ?_⟩
  · intro db fetch q req mr now h
    simp only [searchEmailsSvc]
    rw [if_pos (by simp [h])]
  · intro db fetchUrgent mr now h
    simp only [getUrgentSvc]
    rw [if_pos (by simp [h])]
  · intro db fetch q req mr now h1 h2
    simp only [searchEmailsSvc]
    rw [if_neg (by simpa [List.length_eq_zero] using h1)]
    rw [collectResults, foldl_processAccount_allfail fetch q mr now _ _ h2]
    simp [rankResults, List.mergeSort_nil]
  · intro db fetchUrgent mr now h1 h2
    simp only [getUrgentSvc]
    rw [if_neg (by simpa [List.length_eq_zero] using h1)]
    rw [foldl_processUrgentAccount_allfail fetchUrgent mr now _ _ h2]
    simp [List.mergeSort_nil]

/-- Witness for C7 (amended) at concrete inputs: an empty registry, an
inactive-only registry, and an active account whose provider calls all
fail. -/
theorem c7_amended_empty_scope_behaviour_witness :
    searchEmailsSvc [] fetchNever "q" none 5 0
      = .error "No email accounts available for search" ∧
    getUrgentSvc [] fetchUrgentNever 5 0 = .error "No email accounts configured" ∧
    searchEmailsSvc [exAcct2] fetchNever "q" none 5 0 = .ok [] ∧
    getUrgentSvc [exAcct2] fetchUrgentNever 5 0 = .ok ([], []) :=
  ⟨c7_amended_empty_scope_behaviour.1 [] fetchNever "q" none 5 0 rfl,
   c7_amended_empty_scope_behaviour.2.1 [] fetchUrgentNever 5 0 rfl,
   c7_amended_empty_scope_behaviour.2.2.1 [exAcct2] fetchNever "q" none 5 0
     (by simp [resolveAccounts, listActiveAccounts, exAcct2])
     (fun a _ => ⟨"unreachable", rfl⟩),
   c7_amended_empty_scope_behaviour.2.2.2 [exAcct2] fetchUrgentNever 5 0
     (by simp [listActiveAccounts, exAcct2])
     (fun a _ => ⟨"unreachable", rfl⟩)⟩

lemma truthyStr_imap : truthyStr (some "imap") = true := rfl

lemma truthyStr_gmail : truthyStr (some "gmail") = true := rfl

/-- C8: `addEmailAccount` validates provider fields before storing — an
IMAP request missing any of host/port/username/password fails with the
IMAP validation error; the same request with all four populated (and a
fresh name) succeeds and returns an account id; a Gmail request missing
`refreshToken` fails with the Gmail validation error; and a request whose
friendly name already exists fails with the name-conflict error. -/
theorem c8_add_account_validation :
    (∀ (db : List EmailAccount) (p : AddAccountParams),
      truthyStr p.accountName = true → truthyStr p.email = true →
      p.provider = some "imap" →
      (truthyStr p.host = false ∨ truthyNat p.port = false
        ∨ truthyStr p.username = false ∨ truthyStr p.password = false) →
      addEmailAccountHandler db p
        = .error "IMAP provider requires host, port, username, password") ∧
    (∀ (db : List EmailAccount) (p : AddAccountParams),
      truthyStr p.accountName = true → truthyStr p.email = true →
      p.provider = some "imap" →
      truthyStr p.host = true → truthyNat p.port = true →
      truthyStr p.username = true → truthyStr p.password = true →
      db.any (fun a => a.accountName = p.accountName.getD "") = false →
      ∃ i db', addEmailAccountHandler db p = .ok (i, db')) ∧
    (∀ (db : List EmailAccount) (p : AddAccountParams),
      truthyStr p.accountName = true → truthyStr p.email = true →
      p.provider = some "gmail" → truthyStr p.refreshToken = false →
      addEmailAccountHandler db p = .error "Gmail provider requires refreshToken") ∧
    (∀ (db : List EmailAccount) (p : AddAccountParams),
      truthyStr p.accountName = true → truthyStr p.email = true →
      p.provider = some "imap" →
      truthyStr p.host = true → truthyNat p.port = true →
      truthyStr p.username = true → truthyStr p.password = true →
      db.any (fun a => a.accountName = p.accountName.getD "") = true →
      addEmailAccountHandler db p
        = .error ("Account name \"" ++ p.accountName.getD "" ++ "\" already exists")) := by
  refine ⟨?_, ?_, ?_, ?_⟩
  · intro db p hacc hemail hprov hmiss
    rcases hmiss with hm | hm | hm | hm <;>
      simp [addEmailAccountHandler, hacc, hemail, hprov, hm, truthyStr_imap]
  · intro db p hacc hemail hprov hhost hport huser hpass hconf
    have hh : addEmailAccountHandler db p = .ok (nextAccountId db,
        db ++ [{ id := nextAccountId db, accountName := p.accountName.getD "",
                 email := p.email.getD "", provider := p.provider.getD "",
                 isActive := true, defaultMailbox := p.defaultMailbox.getD "INBOX",
                 customUrgentKeywords := p.customUrgentKeywords.getD [],
                 customImportantKeywords := p.customImportantKeywords.getD [] }]) := by
      simp [addEmailAccountHandler, hacc, hemail, hprov, hhost, hport, huser, hpass,
        addAccountSvc, hconf, truthyStr_imap]
    exact ⟨_, _, hh⟩
  · intro db p hacc hemail hprov htok
    simp [addEmailAccountHandler, hacc, hemail, hprov, htok, truthyStr_gmail]
  · intro db p hacc hemail hprov hhost hport huser hpass hconf
    simp [addEmailAccountHandler, hacc, hemail, hprov, hhost, hport, huser, hpass,
      addAccountSvc, hconf, truthyStr_imap]

/-- Witness for C8 at concrete requests: an IMAP request missing `host`,
the same request with all four fields, a Gmail request without a refresh
token, and a duplicate friendly name. -/
theorem c8_add_account_validation_witness :
    addEmailAccountHandler []
      { accountName := some "w", email := some "w@x.io", provider := some "imap",
        refreshToken := none, host := none, port := some 993,
        username := some "u", password := some "p", defaultMailbox := none,
        customUrgentKeywords := none, customImportantKeywords := none }
      = .error "IMAP provider requires host, port, username, password" ∧
    (∃ i db', addEmailAccountHandler []
      { accountName := some "w", email := some "w@x.io", provider := some "imap",
        refreshToken := none, host := some "imap.x.io", port := some 993,
        username := some "u", password := some "p", defaultMailbox := none,
        customUrgentKeywords := none, customImportantKeywords := none }
      = .ok (i, db')) ∧
    addEmailAccountHandler []
      { accountName := some "w", email := some "w@x.io", provider := some "gmail",
        refreshToken := none, host := none, port := none,
        username := none, password := none, defaultMailbox := none,
        customUrgentKeywords := none, customImportantKeywords := none }
      = .error "Gmail provider requires refreshToken" ∧
    addEmailAccountHandler [exPlainAcct]
      { accountName := some "plain", email := some "w@x.io", provider := some "imap",
        refreshToken := none, host := some "imap.x.io", port := some 993,
        username := some "u", password := some "p", defaultMailbox := none,
        customUrgentKeywords := none, customImportantKeywords := none }
      = .error ("Account name \"" ++ "plain" ++ "\" already exists") :=
  ⟨c8_add_account_validation.1 [] _ rfl rfl rfl (Or.inl rfl),
   c8_add_account_validation.2.1 [] _ rfl rfl rfl rfl (by decide) rfl rfl rfl,
   c8_add_account_validation.2.2.1 [] _ rfl rfl rfl rfl,
   by
    have := c8_add_account_validation.2.2.2 [exPlainAcct]
      { accountName := some "plain", email := some "w@x.io", provider := some "imap",
        refreshToken := none, host := some "imap.x.io", port := some 993,
        username := some "u", password := some "p", defaultMailbox := none,
        customUrgentKeywords := none, customImportantKeywords := none }
      rfl rfl rfl rfl (by decide) rfl rfl (by decide)
    simpa using this⟩

/-- C9: a `searchEmails` or `getUrgentEmails` request with `maxResults`
above 500 is rejected with a validation error before any provider client
runs — the handler result is an error and does not depend on the
provider fetch function at all (so no provider call and no cache write
can have occurred). -/
theorem c9_max_results_cap_rejected_before_fetch :
    (∀ (db : List EmailAccount)
        (f g : EmailAccount → String → Nat → Except String (List EmailMessage))
        (now : Int) (p : SearchParams),
      500 < p.maxResults.getD 50 →
      (∃ e, searchEmailsHandler db f now p = .error e) ∧
      searchEmailsHandler db f now p = searchEmailsHandler db g now p) ∧
    (∀ (db : List EmailAccount)
        (fu gu : EmailAccount → Nat → Except String (List EmailMessage))
        (now : Int) (p : UrgentParams),
      500 < p.maxResults.getD 20 →
      getUrgentEmailsHandler db fu now p = .error "maxResults cannot exceed 500" ∧
      getUrgentEmailsHandler db fu now p = getUrgentEmailsHandler db gu now p) := by
  constructor
  · intro db f g now p h
    by_cases hq : truthyStr p.query = true
    · constructor
      · exact ⟨"maxResults cannot exceed 500", by simp [searchEmailsHandler, hq, h]⟩
      · simp [searchEmailsHandler, hq, h]
    · have hq' : truthyStr p.query = false := by simpa using hq
      constructor
      · exact ⟨"Missing required field: query", by simp [searchEmailsHandler, hq']⟩
      · simp [searchEmailsHandler, hq']
  · intro db fu gu now p h
    constructor
    · simp [getUrgentEmailsHandler, h]
    · simp [getUrgentEmailsHandler, h]

/-- Witness for C9 with `maxResults = 501` and two different fetch
functions. -/
theorem c9_max_results_cap_rejected_before_fetch_witness :
    ((∃ e, searchEmailsHandler [exPlainAcct] fetchOne 0
        { query := some "q", accounts := none, maxResults := some 501,
          minUrgencyScore := none, minImportanceScore := none } = .error e) ∧
      searchEmailsHandler [exPlainAcct] fetchOne 0
        { query := some "q", accounts := none, maxResults := some 501,
          minUrgencyScore := none, minImportanceScore := none }
        = searchEmailsHandler [exPlainAcct] fetchNever 0
          { query := some "q", accounts := none, maxResults := some 501,
            minUrgencyScore := none, minImportanceScore := none }) ∧
    (getUrgentEmailsHandler [exPlainAcct] fetchUrgentNever 0
        { maxResults := some 501, accounts := none, onlyUnread := false }
        = .error "maxResults cannot exceed 500" ∧
      getUrgentEmailsHandler [exPlainAcct] fetchUrgentNever 0
        { maxResults := some 501, accounts := none, onlyUnread := false }
        = getUrgentEmailsHandler [exPlainAcct] (fun _ _ => .ok []) 0
          { maxResults := some 501, accounts := none, onlyUnread := false }) :=
  ⟨c9_max_results_cap_rejected_before_fetch.1 [exPlainAcct] fetchOne fetchNever 0
      _ (by norm_num),
   c9_max_results_cap_rejected_before_fetch.2 [exPlainAcct] fetchUrgentNever
      (fun _ _ => .ok []) 0 _ (by norm_num)⟩

/-- C10: the `getUrgentEmails` handler ignores its `accounts` parameter —
two requests differing only in the account-id list produce identical
urgent and important buckets, because the handler always queries the
service over all active accounts and never forwards the id list. -/
theorem c10_get_urgent_ignores_accounts_param
    (db : List EmailAccount)
    (fetchUrgent : EmailAccount → Nat → Except String (List EmailMessage))
    (now : Int) (mr : Option Nat) (accs1 accs2 : Option (List Nat)) (ou : Bool) :
    getUrgentEmailsHandler db fetchUrgent now
        { maxResults := mr, accounts := accs1, onlyUnread := ou }
      = getUrgentEmailsHandler db fetchUrgent now
        { maxResults := mr, accounts := accs2, onlyUnread := ou } := rfl
